import Mathlib

/-!
Verification development for the python-basic interpreter.

This file gives a shallow embedding, in Lean 4, of the parts of the
interpreter that the checked properties speak about: the value and coercion
engine (lib/value/*.py, lib/expression/eadd.py, lib/expression/eand.py),
the character-level lexer finite-state machine (lib/parser/token_stream.py),
token construction and keyword promotion (lib/parser/token.py), the
expression-parsing precedence cascade and command reading
(lib/parser/parser.py), and the environment's array operations
(lib/runtime/environment.py).

Machine floats of the source are modelled by rational numbers: all claims
under study concern type dispatch and control flow, never rounding.
Python dictionaries are modelled by association lists.  Loops of the source
that are not structurally decreasing are modelled with an explicit fuel
argument; a result of `none` means the loop has not finished within the
given fuel.

Python resolves attribute and global names at run time and case
sensitively, so the name-resolution slips of this half-ported source are
modelled explicitly where they change observable behaviour:
the identifier `this` (a JavaScript remnant) is undefined in Python, so
the keyword-promotion branch of Token.__init__ raises a NameError
(modelled as `PyErr.nameErr`); token_stream.py line 184 calls self.Eof()
while the class only defines EOF, so every iteration of _ReadToken raises
an AttributeError before its state dispatch (modelled as
`PyErr.attrError`); parser.py line 207 reads token.TYPE_INT off the
peeked Token instance while the TYPE_* constants are module-level only,
so _ReadCommand raises an AttributeError inside its outer try on every
input (modelled as `ParseErr.attrErr`); and the same modelling covers the
tok.IsTyp and exception.ParseException misspellings inside the parser.
-/

set_option autoImplicit false

namespace PyBasic

/-- Error kind raised while evaluating, from lib/exception (codes as used by
the files under src: ERR_TYPE, ERR_FORMAT with a context string, ERR_BADVAR,
ERR_INTERNAL) together with the spec's IndexOutOfBounds kind (ERR_BOUNDS)
raised by the array store. -/
inductive EvalErr where
  | ERR_TYPE
  | ERR_FORMAT (ctx : String)
  | ERR_BADVAR
  | ERR_BOUNDS
  | ERR_INTERNAL
  deriving Repr, DecidableEq

/-- Numeric value of a decimal digit character. -/
def digitVal (c : Char) : Nat := c.toNat - '0'.toNat

/-- Value of a list of decimal digit characters, most significant first. -/
def digitsToNat (cs : List Char) : Nat :=
  cs.foldl (fun n c => n * 10 + digitVal c) 0

/-- Trims leading and trailing Python whitespace from a character list,
as Python's int()/float() constructors do before parsing. -/
def pyStrip (cs : List Char) : List Char :=
  ((cs.dropWhile Char.isWhitespace).reverse.dropWhile Char.isWhitespace).reverse

/-- Splits an optional single leading sign off a character list, returning
the sign as an integer factor. -/
def splitSign : List Char → Int × List Char
  | '+' :: rest => (1, rest)
  | '-' :: rest => (-1, rest)
  | cs => (1, cs)

/-- Model of Python's int(s) on a string: optional surrounding whitespace,
an optional sign, then one or more decimal digits; anything else fails
(Python raises ValueError, modelled as `none`). -/
def pyIntOfString (s : String) : Option Int :=
  let (sign, ds) := splitSign (pyStrip s.toList)
  if ds ≠ [] ∧ ds.all Char.isDigit then some (sign * digitsToNat ds) else none

/-- Model of Python's float(s) on a string holding a finite decimal
literal: optional surrounding whitespace, an optional sign, a mantissa
(digits, digits.digits, .digits or digits.), and an optional exponent part
introduced by e or E with an optional sign and one or more digits.
Anything else fails (`none`).  The special spellings inf and nan are left
out of the model: no claim under study touches them, and the rational
carrier has no representation for them. -/
def pyFloatOfString (s : String) : Option Rat :=
  let (sign, ds) := splitSign (pyStrip s.toList)
  let intPart := ds.takeWhile Char.isDigit
  let rest := ds.dropWhile Char.isDigit
  let (fracPart, rest2) :=
    match rest with
    | '.' :: r => (r.takeWhile Char.isDigit, r.dropWhile Char.isDigit)
    | r => ([], r)
  let hasDot : Bool := match rest with | '.' :: _ => true | _ => false
  if intPart = [] ∧ fracPart = [] then none
  else
    let mant : Rat :=
      (digitsToNat (intPart ++ fracPart) : Rat) / ((10 : Rat) ^ fracPart.length)
    let applyExp : List Char → Option Rat := fun r =>
      match r with
      | [] => some ((sign : Rat) * mant)
      | e :: r1 =>
        if e = 'e' ∨ e = 'E' then
          let (esign, edigits) := splitSign r1
          if edigits ≠ [] ∧ edigits.all Char.isDigit then
            let m := digitsToNat edigits
            if esign = 1 then some ((sign : Rat) * mant * (10 : Rat) ^ m)
            else some ((sign : Rat) * mant / (10 : Rat) ^ m)
          else none
        else none
    if hasDot ∨ rest2 ≠ [] then applyExp rest2 else applyExp rest

/-- Tagged union of runtime values, from lib/value: VInt (vint.py),
VFloat (vfloat.py, carrier idealized to the rationals), VString
(vstring.py) and VNull (vnull.py). -/
inductive Value where
  | VInt (i : Int)
  | VFloat (q : Rat)
  | VString (s : String)
  | VNull
  deriving Repr, DecidableEq

namespace Value

/-- Kind predicate IsInt: overridden to True by VInt (vint.py) and VNull
(vnull.py).  Modelled from the spec: the base class lib/value/value.py is
not under src; its default for every is-kind predicate is False (the spec
calls Value a tagged union whose only double member is Null). -/
def IsInt : Value → Bool
  | VInt _ => true
  | VNull => true
  | _ => false

/-- Kind predicate IsFloat: overridden to True by VFloat (vfloat.py) and
VNull (vnull.py); base default False as for IsInt. -/
def IsFloat : Value → Bool
  | VFloat _ => true
  | VNull => true
  | _ => false

/-- Kind predicate IsString: overridden to True by VString (vstring.py) and
VNull (vnull.py); base default False as for IsInt. -/
def IsString : Value → Bool
  | VString _ => true
  | VNull => true
  | _ => false

/-- Numeric test.  Modelled from the spec: the base class carrying
IsNumeric is not under src; per the spec a value is numeric exactly when it
is of an integer or float kind, and Null is numeric. -/
def IsNumeric (v : Value) : Bool := v.IsInt || v.IsFloat

/-- Conversion of a string payload by Python's int(), from
lib/value/vstring.py AsInt: a ValueError becomes ERR_FORMAT with context
string conversion. -/
def stringAsInt (s : String) : Except EvalErr Int :=
  match pyIntOfString s with
  | some n => .ok n
  | none => .error (.ERR_FORMAT "string conversion")

/-- Conversion of a string payload by Python's float(), from
lib/value/vstring.py AsFloat: a ValueError becomes ERR_FORMAT with context
string conversion. -/
def stringAsFloat (s : String) : Except EvalErr Rat :=
  match pyFloatOfString s with
  | some q => .ok q
  | none => .error (.ERR_FORMAT "string conversion")

/-- Truncation toward zero, the behaviour of Python's int() on a float. -/
def ratTrunc (q : Rat) : Int := q.num.tdiv q.den

/-- AsInt conversion: vint.py returns the payload, vfloat.py applies
int() (truncation), vstring.py parses (possibly failing with ERR_FORMAT),
vnull.py returns 0. -/
def AsInt : Value → Except EvalErr Int
  | VInt i => .ok i
  | VFloat q => .ok (ratTrunc q)
  | VString s => stringAsInt s
  | VNull => .ok 0

/-- AsFloat conversion: vint.py widens, vfloat.py returns the payload,
vstring.py parses (possibly failing with ERR_FORMAT), vnull.py
returns 0.0. -/
def AsFloat : Value → Except EvalErr Rat
  | VInt i => .ok (i : Rat)
  | VFloat q => .ok q
  | VString s => stringAsFloat s
  | VNull => .ok 0

/-- AsString conversion: vstring.py returns the payload, vnull.py returns
the empty string.  Modelled from the spec for the numeric kinds: the base
class is not under src and the spec says conversions may fail; a numeric
value asked for as a string is an internal error. -/
def AsString : Value → Except EvalErr String
  | VString s => .ok s
  | VNull => .ok ""
  | _ => .error .ERR_INTERNAL

end Value

/-- Filename-validity predicate on a VString payload, translated from
lib/value/vstring.py IsValidFilename.  The body of the source method is a
docstring holding the original (unconverted) JavaScript logic followed by
the single statement return False, so the predicate rejects every
string. -/
def VString.IsValidFilename (_value : String) : Bool :=
  false

/-! Tokens, from lib/parser/token.py. -/

/-- Closed set of token kinds, from the module-level TYPE_* constants of
lib/parser/token.py (codes 1 to 28 in source order). -/
inductive TokenType where
  | TYPE_EOF
  | TYPE_COLON
  | TYPE_COMMA
  | TYPE_COMMENT
  | TYPE_DIVIDE
  | TYPE_EQUAL
  | TYPE_FLOAT
  | TYPE_FUNCTION
  | TYPE_GEQ
  | TYPE_GT
  | TYPE_ID_FLOAT
  | TYPE_ID_INT
  | TYPE_ID_STRING
  | TYPE_INT
  | TYPE_INT_BIN
  | TYPE_INT_HEX
  | TYPE_KEYWORD
  | TYPE_LEQ
  | TYPE_LPAREN
  | TYPE_LT
  | TYPE_MINUS
  | TYPE_NEQUAL
  | TYPE_PLUS
  | TYPE_POWER
  | TYPE_RPAREN
  | TYPE_SEMICOLON
  | TYPE_STRING
  | TYPE_TIMES
  deriving Repr, DecidableEq

open TokenType

/-- Payload of a token: Python passes None, a str, an int or a float as the
value argument of Token.__init__. -/
inductive TokenValue where
  | none
  | str (s : String)
  | int (n : Int)
  | float (q : Rat)
  deriving Repr, DecidableEq

/-- Python truthiness of a token payload, used by the
if self.value: guard in Token.__init__ (None, the empty string, 0 and 0.0
are falsy). -/
def TokenValue.truthy : TokenValue → Bool
  | .none => false
  | .str s => s ≠ ""
  | .int n => n ≠ 0
  | .float q => q ≠ 0

/-- Python-level failures of the transliterated source that the claims
observe: nameErr models the NameError raised where the JavaScript
identifier this survives in Python code (token.py Token.__init__);
attrError models the AttributeError raised where the source accesses an
attribute that does not exist, carrying the attribute name (such as
self.Eof at token_stream.py line 184, the class defining only EOF). -/
inductive PyErr where
  | nameErr
  | attrError (name : String)
  deriving Repr, DecidableEq

/-- Set of valid builtin function names, from Token.FUNCTIONS. -/
def FUNCTIONS : List String :=
  ["ABS", "ACOS", "ASC", "ASIN", "ATAN",
   "ATAN2", "BIN$", "CHR$", "COS", "DATE$",
   "EXP", "HEX$", "INSTR", "INT", "LEFT$",
   "LEN", "LOG", "LOOK", "MID$", "POS",
   "RIGHT$", "RND", "SGN", "SIN", "SIZE",
   "SPACE$", "SQR", "STR$", "STRING$", "TAB",
   "TAN", "TIME$", "VAL"]

/-- Set of valid keywords, from Token.KEYWORDS. -/
def KEYWORDS : List String :=
  ["AND", "CLEAR", "CLS", "COLOR", "CURSOR",
   "DATA", "DEF", "DELETE", "DIM", "ELSE",
   "END", "FILES", "FOLDER", "FOLDERS", "FOR",
   "GET", "GOSUB", "GOTO", "IF", "INPUT",
   "LET", "LIST", "LOAD", "LOCATE", "MOD",
   "NEW", "NEXT", "NOT", "PAUSE", "PRINT",
   "OFF", "ON", "OR", "RANDOMIZE", "READ",
   "REMOVE", "RENUM", "RESTORE", "RETURN", "RUN",
   "SAVE", "STEP", "STOP", "THEN", "TO",
   "TROFF", "TRON", "WEND", "WHILE", "WIDTH"]

/-- Python str.upper on the ASCII identifiers the lexer produces,
character by character. -/
def pyUpper (s : String) : String := ⟨s.toList.map Char.toUpper⟩

/-- Python str.lower on the ASCII identifiers the lexer produces,
character by character. -/
def pyLower (s : String) : String := ⟨s.toList.map Char.toLower⟩

/-- An individual BASIC token: a kind and an optional payload. -/
structure Token where
  type : TokenType
  value : TokenValue
  deriving Repr, DecidableEq

/-- Membership of a token kind in the ID kinds, from Token.IsId. -/
def TokenType.isIdType (t : TokenType) : Bool :=
  t = TYPE_ID_FLOAT ∨ t = TYPE_ID_INT ∨ t = TYPE_ID_STRING

/-- Token constructor, translated from Token.__init__ (token.py lines
36-59).  With a truthy payload, an ID_FLOAT or ID_STRING token whose
uppercased spelling is a keyword or a builtin function name enters the
promotion branch; that branch assigns through the undefined identifier
this (this.type = TYPE_KEYWORD and so on), which in Python raises a
NameError before any field changes, modelled as the error nameErr.
Otherwise, an ID-typed token has its payload forced to lowercase. -/
def mkToken (type : TokenType) (value : TokenValue := .none) :
    Except PyErr Token :=
  if value.truthy then
    if type = TYPE_ID_FLOAT ∨ type = TYPE_ID_STRING then
      match value with
      | .str s =>
        let id := pyUpper s
        if KEYWORDS.contains id then .error .nameErr
        else if FUNCTIONS.contains id then .error .nameErr
        else if type.isIdType then .ok ⟨type, .str (pyLower s)⟩
        else .ok ⟨type, value⟩
      | _ =>
        if type.isIdType then .ok ⟨type, value⟩ else .ok ⟨type, value⟩
    else
      match value with
      | .str s =>
        if type.isIdType then .ok ⟨type, .str (pyLower s)⟩
        else .ok ⟨type, value⟩
      | _ => .ok ⟨type, value⟩
  else .ok ⟨type, value⟩

namespace Token

/-- Checks whether this token is a reference to an FN function, from
Token.IsFn: an ID token whose (lower-cased) name has at least three
characters and starts with fn. -/
def IsFn (t : Token) : Bool :=
  t.type.isIdType &&
    (match t.value with
     | .str s => decide (3 ≤ s.length) && decide (s.take 2 = "fn")
     | _ => false)

/-- Checks whether this token is one of the ID types, from Token.IsId. -/
def IsId (t : Token) : Bool := t.type.isIdType

/-- Checks whether this token is one of the integer types, from
Token.IsInt. -/
def IsInt (t : Token) : Bool :=
  t.type = TYPE_INT ∨ t.type = TYPE_INT_BIN ∨ t.type = TYPE_INT_HEX

/-- Checks whether this token matches the given keyword, from
Token.IsKeyword. -/
def IsKeyword (t : Token) (keyword : String) : Bool :=
  t.type = TYPE_KEYWORD && t.value = .str keyword

/-- Checks whether this token is of the given type, from Token.IsType. -/
def IsType (t : Token) (type : TokenType) : Bool := t.type = type

end Token

/-! Expression trees, from lib/expression.  Only eadd.py, eand.py and the
base class expression.py are under src; the remaining node classes are
declared here with the constructor names and argument lists used by their
callers in lib/parser/parser.py, and their evaluation (not needed by any
claim) falls back to the base behaviour. -/

/-- Relation selectors, as the RELATION_TYPE_* constants referenced by
parser.py when building expression.ERelational nodes. -/
inductive RelationType where
  | RELATION_TYPE_EQ
  | RELATION_TYPE_NEQ
  | RELATION_TYPE_GEQ
  | RELATION_TYPE_GT
  | RELATION_TYPE_LEQ
  | RELATION_TYPE_LT
  deriving Repr, DecidableEq

/-- Expression nodes.  EAdd and EAnd are from src (eadd.py, eand.py); the
other constructors mirror the classes instantiated by parser.py (EInt with
its display base, EFloat, EString, ELValue and ELValueArray over the token
read, EParen, ENegate, ENot, EPower, ERelational, ESubtract, EMultiply,
EDivide, EMod, and EOf as spelled at parser.py line 416 for the OR level).
The expression.fn builtin-call classes (EFnAbs and the rest) are folded
into the single constructor EFn carrying the builtin's name, since the
per-name classes are not under src and differ only in that name;
zero-argument builtins are EFn with an empty argument list.  ENone stands
for the Python None that parser._ReadFunction returns, its return
statement being missing from the source. -/
inductive Expression where
  | EInt (n : Int) (base : Nat)
  | EFloat (q : Rat)
  | EString (s : String)
  | ELValue (tok : Token)
  | ELValueArray (tok : Token) (subs : List Expression)
  | EFn (name : String) (args : List Expression)
  | ENone
  | EParen (e : Expression)
  | ENegate (e : Expression)
  | ENot (e : Expression)
  | EPower (a b : Expression)
  | ERelational (rel : RelationType) (a b : Expression)
  | EAdd (a b : Expression)
  | ESubtract (a b : Expression)
  | EMultiply (a b : Expression)
  | EDivide (a b : Expression)
  | EMod (a b : Expression)
  | EAnd (a b : Expression)
  | EOf (a b : Expression)
  deriving Repr

/-- Evaluation of an expression to a value or an error.  The EAdd case is
translated from eadd.py EAdd.Evaluate (lines 19-30): Int plus Int stays
Int, any other numeric pairing widens to Float, String plus String
concatenates, and everything else is ERR_TYPE.  The EAnd case is
translated from eand.py EAnd.Evaluate (lines 18-22): both operands are
evaluated through EvaluateToNumeric (expression.py lines 20-32, inlined
at its two call sites here to keep the recursion structural) and combined
with bitwise and on their integer coercions.  Literal nodes evaluate to
the corresponding value, as their (absent) classes must per the spec.
Every other node falls back to the base-class behaviour of expression.py
Expression.Evaluate, an internal error. -/
def Expression.Evaluate : Expression → Except EvalErr Value
  | .EInt n _ => .ok (.VInt n)
  | .EFloat q => .ok (.VFloat q)
  | .EString s => .ok (.VString s)
  | .EAdd a b => do
    let val_a ← a.Evaluate
    let val_b ← b.Evaluate
    if val_a.IsInt && val_b.IsInt then do
      let x ← val_a.AsInt
      let y ← val_b.AsInt
      pure (.VInt (x + y))
    else if val_a.IsNumeric && val_b.IsNumeric then do
      let x ← val_a.AsFloat
      let y ← val_b.AsFloat
      pure (.VFloat (x + y))
    else if val_a.IsString && val_b.IsString then do
      let x ← val_a.AsString
      let y ← val_b.AsString
      pure (.VString (x ++ y))
    else throw .ERR_TYPE
  | .EAnd a b => do
    let ra ← a.Evaluate
    let val_a ← if ra.IsNumeric then pure ra else throw EvalErr.ERR_TYPE
    let rb ← b.Evaluate
    let val_b ← if rb.IsNumeric then pure rb else throw EvalErr.ERR_TYPE
    let x ← val_a.AsInt
    let y ← val_b.AsInt
    pure (.VInt (Int.land x y))
  | _ => .error .ERR_INTERNAL

/-- Evaluation with a numeric check, from expression.py
Expression.EvaluateToNumeric: a non-numeric result is ERR_TYPE. -/
def Expression.EvaluateToNumeric (e : Expression) : Except EvalErr Value := do
  let val ← e.Evaluate
  if val.IsNumeric then pure val else throw .ERR_TYPE

/-! Lexer finite-state machine, from lib/parser/token_stream.py. -/

/-- States of the token-reading finite-state machine, from the STATE_*
constants of token_stream.py (codes 1 to 30). -/
inductive LexState where
  | STATE_INIT
  | STATE_BASE
  | STATE_COLON
  | STATE_COMMA
  | STATE_COMMENT
  | STATE_DIVIDE
  | STATE_EQUAL
  | STATE_FLOAT1
  | STATE_FLOAT2
  | STATE_FLOAT3
  | STATE_GT
  | STATE_ID
  | STATE_INT
  | STATE_INT_BIN
  | STATE_INT_HEX
  | STATE_LPAREN
  | STATE_LT
  | STATE_MINUS
  | STATE_PLUS
  | STATE_POWER
  | STATE_QUESTION
  | STATE_REM1
  | STATE_REM2
  | STATE_REM3
  | STATE_RPAREN
  | STATE_SEMICOLON
  | STATE_STRING
  | STATE_TIMES
  | STATE_EOF
  | STATE_ERROR
  deriving Repr, DecidableEq

open LexState

/-- Mutable state of one execution of the _ReadToken loop body: the FSM
state, the accumulator acc, and the buffer offset. -/
structure LexConfig where
  state : LexState
  acc : String
  offset : Nat
  deriving Repr, DecidableEq

/-- Outcome of one iteration of the _ReadToken while-loop: either the loop
continues with an updated configuration, or the iteration leaves the loop
with a result (a token paired with the offset after it, or a raised
error). -/
inductive LexStep where
  | cont (c : LexConfig)
  | result (r : Except PyErr (Token × Nat))
  deriving Repr

/-- One iteration of the while-loop of TokenStream._ReadToken
(token_stream.py lines 182-427).  The first statement of the loop body,
line 184,

    ch = chr(0) if self.Eof() else self.buffer[self.offset]

calls self.Eof(), but the class defines only EOF (line 20) and Python
attribute lookup is case sensitive, so every iteration raises an
AttributeError before the state dispatch is reached.  The whole dispatch
of lines 187 to 427 — the STATE_INIT branch table (with its ch == chr(48)
end-of-input comparison, its routing of whitespace to STATE_ERROR and its
missing else), the identifier, number, string, comment and operator
states, the absent STATE_INT case, and the raising STATE_ERROR — is dead
code, so the iteration leaves the loop at once with that error, whatever
the configuration and the buffer. -/
def lexStep (_buffer : List Char) (_c : LexConfig) : LexStep :=
  .result (.error (.attrError "Eof"))

/-- Runs the _ReadToken loop for at most fuel iterations; none means the
loop has not produced a result within the given fuel. -/
def runLex : Nat → List Char → LexConfig → Option (Except PyErr (Token × Nat))
  | 0, _, _ => Option.none
  | fuel + 1, buffer, c =>
    match lexStep buffer c with
    | .cont c2 => runLex fuel buffer c2
    | .result r => some r

/-- TokenStream._ReadToken: the loop started on the initial configuration
(STATE_INIT, empty accumulator) at the given offset. -/
def ReadToken (fuel : Nat) (buffer : List Char) (offset : Nat) :
    Option (Except PyErr (Token × Nat)) :=
  runLex fuel buffer ⟨STATE_INIT, "", offset⟩

/-- Stream state of a TokenStream (token_stream.py __init__): the buffer,
the current offset within it, and the single buffered peek token. -/
structure TokenStream where
  buffer : List Char
  offset : Nat
  peek : Option Token
  deriving Repr, DecidableEq

/-- TokenStream.Get (token_stream.py lines 24-37): a buffered peek token
is handed out and cleared; otherwise the next token is read from the
buffer, advancing the offset. -/
def TokenStream.Get (fuel : Nat) (s : TokenStream) :
    Option (Except PyErr (Token × TokenStream)) :=
  match s.peek with
  | some t => some (.ok (t, { s with peek := Option.none }))
  | Option.none =>
    (ReadToken fuel s.buffer s.offset).map (Except.map
      (fun p => (p.1, { s with offset := p.2, peek := Option.none })))

/-- TokenStream.Peek (token_stream.py lines 39-50): an already buffered
peek token is returned unchanged; otherwise the next token is read,
buffered, and returned, without being consumed. -/
def TokenStream.Peek (fuel : Nat) (s : TokenStream) :
    Option (Except PyErr (Token × TokenStream)) :=
  match s.peek with
  | some t => some (.ok (t, s))
  | Option.none =>
    (ReadToken fuel s.buffer s.offset).map (Except.map
      (fun p => (p.1, { s with offset := p.2, peek := some p.1 })))

/-! Environment and arrays, from lib/runtime/environment.py. -/

/-- Insert-or-replace on an association list, modelling assignment into a
Python dict (insertion order kept, existing key overwritten). -/
def assocSet {β : Type} : List (String × β) → String → β → List (String × β)
  | [], k, v => [(k, v)]
  | (k1, v1) :: rest, k, v =>
    if k1 = k then (k, v) :: rest else (k1, v1) :: assocSet rest k v

/-- Lookup on an association list, modelling Python dict access combined
with the `key in dict` test. -/
def assocGet {β : Type} : List (String × β) → String → Option β
  | [], _ => Option.none
  | (k1, v1) :: rest, k => if k1 = k then some v1 else assocGet rest k

/-- Modelled from the spec: the class value.ArrayValue used by
Environment.MakeArray, GetArray and SetArray is not under src/lib/value.
Per the spec an array is dense N-dimensional storage with a per-dimension
inclusive bound B yielding B+1 valid indices (base 0), and out-of-range
access is an error.  A cell layer over an association list keyed by the
index vector models the dense block; unwritten cells read as the zero
value of the array's kind. -/
structure ArrayValue where
  type : TokenType
  dims : List Int
  cells : List (List Int × Value)
  deriving Repr, DecidableEq

/-- Zero value of an identifier kind, for unwritten array cells. -/
def zeroOfType : TokenType → Value
  | TYPE_ID_INT => .VInt 0
  | TYPE_ID_STRING => .VString ""
  | _ => .VFloat 0

/-- Index-vector validity against the declared dimensions: same arity, and
each index within the inclusive bound of its dimension (base 0). -/
def validIndices (dims indices : List Int) : Bool :=
  indices.length = dims.length &&
    (List.zip indices dims).all (fun p => 0 ≤ p.1 ∧ p.1 ≤ p.2)

/-- Modelled from the spec: ArrayValue.Get returns the cell at the given
indices, raising IndexOutOfBounds (ERR_BOUNDS) when the index vector is
invalid. -/
def ArrayValue.Get (a : ArrayValue) (indices : List Int) :
    Except EvalErr Value :=
  if validIndices a.dims indices then
    .ok ((a.cells.find? (fun p => p.1 = indices)).elim (zeroOfType a.type)
      Prod.snd)
  else .error .ERR_BOUNDS

/-- Modelled from the spec: ArrayValue.Set stores a value at the given
indices, raising IndexOutOfBounds (ERR_BOUNDS) when the index vector is
invalid. -/
def ArrayValue.Set (a : ArrayValue) (indices : List Int) (v : Value) :
    Except EvalErr ArrayValue :=
  if validIndices a.dims indices then
    .ok { a with cells := (indices, v) :: a.cells.filter (fun p => p.1 ≠ indices) }
  else .error .ERR_BOUNDS

/-- One scope of the environment (environment.py __init__): the three
dictionaries for scalars, arrays and FN functions.  The function values
(class value.VFunction, not under src) play no part in any claim and are
carried opaquely as expressions paired with their formals. -/
structure EnvFrame where
  scalars : List (String × Value)
  arrays : List (String × ArrayValue)
  functions : List (String × (List String × Expression))
  deriving Repr

/-- An environment is its local frame followed by the chain of parent
frames (environment.py keeps a parent reference; an empty tail models
parent None). -/
def Environment := List EnvFrame

/-- Environment.Set (environment.py lines 96-106): writes always target
the local scope. -/
def envSet (env : Environment) (id : String) (v : Value) : Environment :=
  match env with
  | [] => [⟨[(id, v)], [], []⟩]
  | f :: parents => { f with scalars := assocSet f.scalars id v } :: parents

/-- Environment.Get (environment.py lines 29-42): local lookup first,
then delegation to the parent, then None. -/
def envGet : Environment → String → Option Value
  | [], _ => Option.none
  | f :: parents, id =>
    match assocGet f.scalars id with
    | some v => some v
    | Option.none => match parents with
      | [] => Option.none
      | _ => envGet parents id

/-- The double closest to pi, the payload of math.pi seeded into every new
environment. -/
def mathPi : Rat := (884279719003555 : Rat) / (281474976710656 : Rat)

/-- Environment construction (environment.py __init__): fresh empty
dictionaries over the given parent, then the built-in variables pi and
folder$ are seeded through Set.  The source stores the bare Python string
system.State.folder for folder$ where every other binding holds a Value;
the model wraps it as a VString. -/
def mkEnvironment (parent : Environment) (folder : String) : Environment :=
  envSet (envSet (⟨[], [], []⟩ :: parent) "pi" (.VFloat mathPi))
    "folder$" (.VString folder)

/-- Environment.GetArray (environment.py lines 44-62): the local arrays
dictionary first, else delegation to the parent if there is one, else
ERR_BADVAR. -/
def envGetArray : Environment → String → List Int → Except EvalErr Value
  | [], _, _ => .error .ERR_BADVAR
  | f :: parents, id, indices =>
    match assocGet f.arrays id with
    | some a => a.Get indices
    | Option.none => match parents with
      | [] => .error .ERR_BADVAR
      | _ => envGetArray parents id indices

/-- Environment.MakeArray (environment.py lines 79-94): binds a fresh
ArrayValue of the lvalue's kind and the given maximum indices in the local
scope. -/
def envMakeArray (env : Environment) (id : String) (type : TokenType)
    (dims : List Int) : Environment :=
  match env with
  | [] => [⟨[], [(id, ⟨type, dims, []⟩)], []⟩]
  | f :: parents =>
    { f with arrays := assocSet f.arrays id ⟨type, dims, []⟩ } :: parents

/-- Environment.SetArray, translated from environment.py lines 108-125.
The source body is

  if id in self.arrays:
      self.arrays[id].Set(indices, value)
  raise runtime.EvalException(runtime.Error.ERR_BADVAR)

with no else and no return: when the array exists, Set runs (possibly
raising ERR_BOUNDS, in which case that exception propagates and the store
is untouched), and when Set succeeds the updated cells are kept but
control still falls through to the unconditional raise of ERR_BADVAR.
The result pairs the environment after the call with the outcome, which
is an error on every path. -/
def envSetArray (env : Environment) (id : String) (indices : List Int)
    (v : Value) : Environment × Except EvalErr Unit :=
  match env with
  | [] => ([], .error .ERR_BADVAR)
  | f :: parents =>
    match assocGet f.arrays id with
    | some a =>
      match a.Set indices v with
      | .error e => (f :: parents, .error e)
      | .ok a2 =>
        ({ f with arrays := assocSet f.arrays id a2 } :: parents,
          .error .ERR_BADVAR)
    | Option.none => (f :: parents, .error .ERR_BADVAR)

/-! Recursive-descent parser, from lib/parser/parser.py.  The parser is
modelled over a list of already-lexed tokens: Peek reads the head (an EOF
token once the list is empty, matching the stream's behaviour at its end)
and Get removes it.  An explicit fuel argument bounds the recursion and
loop depth; running out of fuel is the Option-layer failure none. -/

/-- Parse-time failures: ParserException with and without a cause
(forming the cause chain of construct names), TokenException raised by the
Require helpers carrying the unexpected token, and the AttributeError that
Python raises where the source names a nonexistent attribute. -/
inductive ParseErr where
  | parserErrRoot (ctx : String)
  | parserErr (ctx : String) (cause : ParseErr)
  | tokenErr (tok : Token)
  | attrErr (name : String)
  deriving Repr, DecidableEq

/-- Result monad of the parser: Except for raised exceptions layered over
Option for fuel exhaustion. -/
abbrev PR (α : Type) := ExceptT ParseErr Option α

/-- Fuel exhaustion (the modelled computation has not returned). -/
def noFuel {α : Type} : PR α := ExceptT.mk Option.none

/-- The try/except pattern shared by every sub-parser: a failure of the
body is wrapped in a ParserException carrying the construct's name. -/
def pwrap {α : Type} (ctx : String) (m : PR α) : PR α :=
  tryCatch m (fun e => throw (.parserErr ctx e))

/-- Lifts a pure Except computation into the parser monad. -/
def liftE {α : Type} (x : Except ParseErr α) : PR α := ExceptT.mk (some x)

/-- The token a stream hands out at its end. -/
def eofToken : Token := ⟨TYPE_EOF, .none⟩

/-- Peek on the list model of the token stream. -/
def tsPeek (ts : List Token) : Token := ts.headD eofToken

/-- String payload of a token (the .value attribute where a str is
expected). -/
def Token.strVal (t : Token) : String :=
  match t.value with | .str s => s | _ => ""

/-- Integer payload of a token (the .value attribute where an int is
expected). -/
def Token.intVal (t : Token) : Int :=
  match t.value with | .int n => n | _ => 0

/-- Float payload of a token (the .value attribute where a float is
expected). -/
def Token.floatVal (t : Token) : Rat :=
  match t.value with | .float q => q | _ => 0

/-- TokenStream.Require on the list model: the next token must have the
given type, else TokenException. -/
def tsRequire (type : TokenType) (ts : List Token) :
    Except ParseErr (Token × List Token) :=
  let t := tsPeek ts
  if t.type = type then .ok (t, ts.tail) else .error (.tokenErr t)

/-- TokenStream.RequireId on the list model. -/
def tsRequireId (ts : List Token) : Except ParseErr (Token × List Token) :=
  let t := tsPeek ts
  if t.IsId then .ok (t, ts.tail) else .error (.tokenErr t)

/-- TokenStream.RequireInt on the list model. -/
def tsRequireInt (ts : List Token) : Except ParseErr (Token × List Token) :=
  let t := tsPeek ts
  if t.IsInt then .ok (t, ts.tail) else .error (.tokenErr t)

/-- TokenStream.RequireKeyword on the list model. -/
def tsRequireKeyword (keyword : String) (ts : List Token) :
    Except ParseErr (Token × List Token) :=
  let t := tsPeek ts
  if t.IsType TYPE_KEYWORD && t.value = .str keyword then .ok (t, ts.tail)
  else .error (.tokenErr t)

/-- Parser._ReadInt (parser.py lines 866-883).  The TYPE_INT arm builds
EInt with the default display base; the next test is spelled tok.IsTyp,
an attribute Token does not have, so a binary or hexadecimal literal
raises an AttributeError, which the handler wraps like any other cause. -/
def readInt (ts : List Token) : Except ParseErr (Expression × List Token) :=
  match tsRequireInt ts with
  | .error e => .error (.parserErr "constant" e)
  | .ok (tok, ts) =>
    if tok.IsType TYPE_INT then .ok (.EInt tok.intVal 10, ts)
    else .error (.parserErr "constant" (.attrErr "IsTyp"))

mutual

/-- Parser._ReadExp: the top of the precedence cascade. -/
def readExp (fuel : Nat) (ts : List Token) : PR (Expression × List Token) :=
  match fuel with
  | 0 => noFuel
  | fuel + 1 => readExp0 fuel ts

/-- Parser._ReadExp0 (OR level): the left operand is read outside the
try, then the OR-loop runs wrapped.  The node class is spelled
expression.EOf in the source (line 416). -/
def readExp0 (fuel : Nat) (ts : List Token) : PR (Expression × List Token) :=
  match fuel with
  | 0 => noFuel
  | fuel + 1 => do
    let (exp, ts) ← readExp1 fuel ts
    pwrap "expression" (readExp0Loop fuel exp ts)

/-- The while-loop of _ReadExp0: an OR keyword is consumed and the next
AND-level operand folded in. -/
def readExp0Loop (fuel : Nat) (exp : Expression) (ts : List Token) :
    PR (Expression × List Token) :=
  match fuel with
  | 0 => noFuel
  | fuel + 1 =>
    if (tsPeek ts).IsKeyword "OR" then do
      let (e2, ts) ← readExp1 fuel ts.tail
      readExp0Loop fuel (.EOf exp e2) ts
    else pure (exp, ts)

/-- Parser._ReadExp1 (AND level), same shape as the OR level. -/
def readExp1 (fuel : Nat) (ts : List Token) : PR (Expression × List Token) :=
  match fuel with
  | 0 => noFuel
  | fuel + 1 => do
    let (exp, ts) ← readExp2 fuel ts
    pwrap "expression" (readExp1Loop fuel exp ts)

/-- The while-loop of _ReadExp1. -/
def readExp1Loop (fuel : Nat) (exp : Expression) (ts : List Token) :
    PR (Expression × List Token) :=
  match fuel with
  | 0 => noFuel
  | fuel + 1 =>
    if (tsPeek ts).IsKeyword "AND" then do
      let (e2, ts) ← readExp2 fuel ts.tail
      readExp1Loop fuel (.EAnd exp e2) ts
    else pure (exp, ts)

/-- Parser._ReadExp2 (equality level, parser.py lines 442-464). -/
def readExp2 (fuel : Nat) (ts : List Token) : PR (Expression × List Token) :=
  match fuel with
  | 0 => noFuel
  | fuel + 1 => do
    let (exp, ts) ← readExp3 fuel ts
    pwrap "expression" (readExp2Loop fuel exp ts)

/-- The while-loop of _ReadExp2.  Unlike every sibling level, neither arm
of the loop body calls self.stream.Get(), so the operator token is never
consumed: the recursive _ReadExp3 call starts at the operator itself. -/
def readExp2Loop (fuel : Nat) (exp : Expression) (ts : List Token) :
    PR (Expression × List Token) :=
  match fuel with
  | 0 => noFuel
  | fuel + 1 =>
    let tok := tsPeek ts
    if tok.IsType TYPE_EQUAL || tok.IsType TYPE_NEQUAL then
      if tok.IsType TYPE_EQUAL then do
        let (e2, ts2) ← readExp3 fuel ts
        readExp2Loop fuel (.ERelational .RELATION_TYPE_EQ exp e2) ts2
      else do
        let (e2, ts2) ← readExp3 fuel ts
        readExp2Loop fuel (.ERelational .RELATION_TYPE_NEQ exp e2) ts2
    else pure (exp, ts)

/-- Parser._ReadExp3 (relational level). -/
def readExp3 (fuel : Nat) (ts : List Token) : PR (Expression × List Token) :=
  match fuel with
  | 0 => noFuel
  | fuel + 1 => do
    let (exp, ts) ← readExp4 fuel ts
    pwrap "expression" (readExp3Loop fuel exp ts)

/-- The while-loop of _ReadExp3: each relational operator is consumed and
the next additive-level operand folded in. -/
def readExp3Loop (fuel : Nat) (exp : Expression) (ts : List Token) :
    PR (Expression × List Token) :=
  match fuel with
  | 0 => noFuel
  | fuel + 1 =>
    let tok := tsPeek ts
    if tok.IsType TYPE_GEQ then do
      let (e2, ts) ← readExp4 fuel ts.tail
      readExp3Loop fuel (.ERelational .RELATION_TYPE_GEQ exp e2) ts
    else if tok.IsType TYPE_GT then do
      let (e2, ts) ← readExp4 fuel ts.tail
      readExp3Loop fuel (.ERelational .RELATION_TYPE_GT exp e2) ts
    else if tok.IsType TYPE_LEQ then do
      let (e2, ts) ← readExp4 fuel ts.tail
      readExp3Loop fuel (.ERelational .RELATION_TYPE_LEQ exp e2) ts
    else if tok.IsType TYPE_LT then do
      let (e2, ts) ← readExp4 fuel ts.tail
      readExp3Loop fuel (.ERelational .RELATION_TYPE_LT exp e2) ts
    else pure (exp, ts)

/-- Parser._ReadExp4 (additive level). -/
def readExp4 (fuel : Nat) (ts : List Token) : PR (Expression × List Token) :=
  match fuel with
  | 0 => noFuel
  | fuel + 1 => do
    let (exp, ts) ← readExp5 fuel ts
    pwrap "expression" (readExp4Loop fuel exp ts)

/-- The while-loop of _ReadExp4. -/
def readExp4Loop (fuel : Nat) (exp : Expression) (ts : List Token) :
    PR (Expression × List Token) :=
  match fuel with
  | 0 => noFuel
  | fuel + 1 =>
    let tok := tsPeek ts
    if tok.IsType TYPE_PLUS then do
      let (e2, ts) ← readExp5 fuel ts.tail
      readExp4Loop fuel (.EAdd exp e2) ts
    else if tok.IsType TYPE_MINUS then do
      let (e2, ts) ← readExp5 fuel ts.tail
      readExp4Loop fuel (.ESubtract exp e2) ts
    else pure (exp, ts)

/-- Parser._ReadExp5 (multiplicative level). -/
def readExp5 (fuel : Nat) (ts : List Token) : PR (Expression × List Token) :=
  match fuel with
  | 0 => noFuel
  | fuel + 1 => do
    let (exp, ts) ← readExp6 fuel ts
    pwrap "expression" (readExp5Loop fuel exp ts)

/-- The while-loop of _ReadExp5. -/
def readExp5Loop (fuel : Nat) (exp : Expression) (ts : List Token) :
    PR (Expression × List Token) :=
  match fuel with
  | 0 => noFuel
  | fuel + 1 =>
    let tok := tsPeek ts
    if tok.IsType TYPE_DIVIDE then do
      let (e2, ts) ← readExp6 fuel ts.tail
      readExp5Loop fuel (.EDivide exp e2) ts
    else if tok.IsType TYPE_TIMES then do
      let (e2, ts) ← readExp6 fuel ts.tail
      readExp5Loop fuel (.EMultiply exp e2) ts
    else if tok.IsKeyword "MOD" then do
      let (e2, ts) ← readExp6 fuel ts.tail
      readExp5Loop fuel (.EMod exp e2) ts
    else pure (exp, ts)

/-- Parser._ReadExp6 (unary level, right-recursive).  The dispatched arms
run inside the try; the fall-through call to _ReadExp7 at the end of the
method (line 579) is outside it and therefore unwrapped. -/
def readExp6 (fuel : Nat) (ts : List Token) : PR (Expression × List Token) :=
  match fuel with
  | 0 => noFuel
  | fuel + 1 =>
    let tok := tsPeek ts
    if tok.IsType TYPE_EOF then pwrap "expression" (readExp7 fuel ts)
    else if tok.IsType TYPE_PLUS then
      pwrap "expression" (readExp6 fuel ts.tail)
    else if tok.IsType TYPE_MINUS then
      pwrap "expression" (do
        let (e, ts) ← readExp6 fuel ts.tail
        pure (Expression.ENegate e, ts))
    else if tok.IsKeyword "NOT" then
      pwrap "expression" (do
        let (e, ts) ← readExp6 fuel ts.tail
        pure (Expression.ENot e, ts))
    else readExp7 fuel ts

/-- Parser._ReadExp7 (exponentiation, right-associative).  The operand is
read before the try.  The except clause of the source names
exception.ParseException, an attribute the exception module does not
have, so a failure inside the power arm surfaces as an AttributeError. -/
def readExp7 (fuel : Nat) (ts : List Token) : PR (Expression × List Token) :=
  match fuel with
  | 0 => noFuel
  | fuel + 1 => do
    let (exp, ts) ← readExp8 fuel ts
    if (tsPeek ts).IsType TYPE_POWER then
      tryCatch (do
          let (e2, ts2) ← readExp7 fuel ts.tail
          pure (Expression.EPower exp e2, ts2))
        (fun _ => throw (.attrErr "ParseException"))
    else pure (exp, ts)

/-- Parser._ReadExp8 (primary level): parenthesized expression, builtin
call, FN call, lvalue, or literal. -/
def readExp8 (fuel : Nat) (ts : List Token) : PR (Expression × List Token) :=
  match fuel with
  | 0 => noFuel
  | fuel + 1 =>
    pwrap "expression" (
      let tok := tsPeek ts
      if tok.IsType TYPE_LPAREN then do
        let (_, ts) ← liftE (tsRequire TYPE_LPAREN ts)
        let (exp, ts) ← readExp fuel ts
        let (_, ts) ← liftE (tsRequire TYPE_RPAREN ts)
        pure (Expression.EParen exp, ts)
      else if tok.IsType TYPE_FUNCTION then readCall fuel ts
      else if tok.IsFn then readFunction fuel ts
      else if tok.IsId then readLValue fuel ts
      else readLiteral fuel ts)

/-- Parser._ReadLiteral: string, float or integer constant; anything else
raises, and the handler wraps every cause as constant. -/
def readLiteral (fuel : Nat) (ts : List Token) : PR (Expression × List Token) :=
  match fuel with
  | 0 => noFuel
  | _fuel + 1 =>
    pwrap "constant" (
      let tok := tsPeek ts
      if tok.IsType TYPE_STRING then pure (Expression.EString tok.strVal, ts.tail)
      else if tok.IsType TYPE_FLOAT then pure (Expression.EFloat tok.floatVal, ts.tail)
      else if tok.IsInt then liftE (readInt ts)
      else throw (.parserErrRoot "expression"))

/-- Parser._ReadLValue: an ID token, dispatching to the array form when a
parenthesis follows. -/
def readLValue (fuel : Nat) (ts : List Token) : PR (Expression × List Token) :=
  match fuel with
  | 0 => noFuel
  | fuel + 1 =>
    pwrap "variable reference" (do
      let (tok, ts) ← liftE (tsRequireId ts)
      if (tsPeek ts).IsType TYPE_LPAREN then readLValueArray fuel tok ts
      else pure (Expression.ELValue tok, ts))

/-- Parser._ReadLValueArray: the parenthesized subscript list after an
array name. -/
def readLValueArray (fuel : Nat) (tok : Token) (ts : List Token) :
    PR (Expression × List Token) :=
  match fuel with
  | 0 => noFuel
  | fuel + 1 =>
    pwrap "array subscript" (do
      let (_, ts) ← liftE (tsRequire TYPE_LPAREN ts)
      let (exps, ts) ← readExpList fuel Option.none Option.none ts
      let (_, ts) ← liftE (tsRequire TYPE_RPAREN ts)
      pure (Expression.ELValueArray tok exps, ts))

/-- Parser._ReadExpList: one or more comma-separated expressions, wrapped
as expression list; the arity check against min_count/max_count runs
after the try, raising argument count unwrapped (Python truthiness makes
a zero bound inert). -/
def readExpList (fuel : Nat) (min_count max_count : Option Nat)
    (ts : List Token) : PR (List Expression × List Token) :=
  match fuel with
  | 0 => noFuel
  | fuel + 1 => do
    let (exps, ts) ← pwrap "expression list" (do
      let (e, ts) ← readExp fuel ts
      readExpListLoop fuel [e] ts)
    let max_count := match min_count, max_count with
      | some m, Option.none => if m ≠ 0 then some m else Option.none
      | _, mc => mc
    if (match min_count with
        | some m => decide (m ≠ 0) && decide (exps.length < m)
        | Option.none => false) ||
       (match max_count with
        | some m => decide (m ≠ 0) && decide (m < exps.length)
        | Option.none => false) then
      throw (.parserErrRoot "argument count")
    else pure (exps, ts)

/-- The while-loop of _ReadExpList: further expressions after commas. -/
def readExpListLoop (fuel : Nat) (exps : List Expression) (ts : List Token) :
    PR (List Expression × List Token) :=
  match fuel with
  | 0 => noFuel
  | fuel + 1 =>
    if (tsPeek ts).IsType TYPE_COMMA then do
      let (e, ts) ← readExp fuel ts.tail
      readExpListLoop fuel (exps ++ [e]) ts
    else pure (exps, ts)

/-- Helper for one arm of the builtin-call chain of _ReadCall: reads the
argument list under the arm's arity bounds and builds the call node. -/
def readCallArgs (fuel : Nat) (name : String) (min_count max_count : Option Nat)
    (ts : List Token) : PR (Expression × List Token) :=
  match fuel with
  | 0 => noFuel
  | fuel + 1 => do
    let (args, ts) ← readExpList fuel min_count max_count ts
    pure (Expression.EFn name args, ts)

/-- Parser._ReadCall (parser.py lines 42-137): the builtin-function-call
chain.  The zero-argument forms (RND without a parenthesis, DATE$, TIME$)
are handled before the opening parenthesis is required; every remaining
arm returns its node directly, so the trailing Require(TYPE_RPAREN) of
the source (lines 133-134) is dead code and the closing parenthesis is
never consumed here. -/
def readCall (fuel : Nat) (ts : List Token) : PR (Expression × List Token) :=
  match fuel with
  | 0 => noFuel
  | fuel + 1 =>
    pwrap "function call" (do
      let (ntok, ts) ← liftE (tsRequire TYPE_FUNCTION ts)
      let name := ntok.strVal
      if name = "RND" && !((tsPeek ts).type = TYPE_LPAREN) then
        pure (Expression.EFn "RND" [], ts)
      else if name = "DATE$" then pure (Expression.EFn "DATE$" [], ts)
      else if name = "TIME$" then pure (Expression.EFn "TIME$" [], ts)
      else do
        let (_, ts) ← liftE (tsRequire TYPE_LPAREN ts)
        if name = "ABS" then readCallArgs fuel "ABS" (some 1) Option.none ts
        else if name = "ACOS" then readCallArgs fuel "ACOS" (some 1) Option.none ts
        else if name = "ASC" then readCallArgs fuel "ASC" (some 1) Option.none ts
        else if name = "ASIN" then readCallArgs fuel "ASIN" (some 1) Option.none ts
        else if name = "ATAN" then readCallArgs fuel "ATAN" (some 1) Option.none ts
        else if name = "ATAN2" then readCallArgs fuel "ATAN2" (some 2) Option.none ts
        else if name = "BIN$" then readCallArgs fuel "BIN$" (some 1) Option.none ts
        else if name = "COS" then readCallArgs fuel "COS" (some 1) Option.none ts
        else if name = "CHR$" then readCallArgs fuel "CHR$" (some 1) Option.none ts
        else if name = "EXP" then readCallArgs fuel "EXP" (some 1) Option.none ts
        else if name = "HEX$" then readCallArgs fuel "HEX$" (some 1) Option.none ts
        else if name = "INSTR" then readCallArgs fuel "INSTR" (some 2) Option.none ts
        else if name = "INT" then readCallArgs fuel "INT" (some 1) Option.none ts
        else if name = "LEFT$" then readCallArgs fuel "LEFT$" (some 2) Option.none ts
        else if name = "LEN" then readCallArgs fuel "LEN" (some 1) Option.none ts
        else if name = "LOG" then readCallArgs fuel "LOG" (some 1) Option.none ts
        else if name = "LOOK" then readCallArgs fuel "LOOK" (some 2) (some 3) ts
        else if name = "MID$" then readCallArgs fuel "MID$" (some 3) Option.none ts
        else if name = "POS" then readCallArgs fuel "POS" (some 1) Option.none ts
        else if name = "RIGHT$" then readCallArgs fuel "RIGHT$" (some 2) Option.none ts
        else if name = "RND" then readCallArgs fuel "RND" (some 1) Option.none ts
        else if name = "SGN" then readCallArgs fuel "SGN" (some 1) Option.none ts
        else if name = "SIN" then readCallArgs fuel "SIN" (some 1) Option.none ts
        else if name = "SIZE" then readCallArgs fuel "SIZE" (some 1) (some 2) ts
        else if name = "SPACE$" then readCallArgs fuel "SPACE$" (some 1) Option.none ts
        else if name = "SQR" then readCallArgs fuel "SQR" (some 1) Option.none ts
        else if name = "STR$" then readCallArgs fuel "STR$" (some 1) Option.none ts
        else if name = "STRING$" then readCallArgs fuel "STRING$" (some 2) Option.none ts
        else if name = "TAB" then readCallArgs fuel "TAB" (some 1) Option.none ts
        else if name = "TAN" then readCallArgs fuel "TAN" (some 1) Option.none ts
        else if name = "VAL" then readCallArgs fuel "VAL" (some 1) Option.none ts
        else throw (.parserErrRoot "unknown function"))

/-- Parser._ReadFunction (parser.py lines 740-755): reads the FN-call
shape but has no return statement, so on success it yields Python's None,
modelled by the ENone node. -/
def readFunction (fuel : Nat) (ts : List Token) : PR (Expression × List Token) :=
  match fuel with
  | 0 => noFuel
  | fuel + 1 =>
    pwrap "function call" (do
      let (ntok, ts) ← liftE (tsRequireId ts)
      let _name := Expression.ELValue ntok
      let (_, ts) ← liftE (tsRequire TYPE_LPAREN ts)
      let (_args, ts) ← readExpList fuel Option.none Option.none ts
      let (_, ts) ← liftE (tsRequire TYPE_RPAREN ts)
      pure (Expression.ENone, ts))

end

/-! Program store and command reading.  The Program class (runtime
package) is not under src; the spec describes it as an ordered map from
line number to statement set with insert-or-replace Add. -/

/-- Modelled from the spec: the program store as an ascending association
list from line number to the stored statement set. -/
def Program (α : Type) := List (Int × α)

/-- Parser._ReadCommand (parser.py lines 189-222), paired with the
program store it leaves behind (the store is the global
system.State.program in the source; returning it makes a mutation, or its
absence, observable).  Line 204 rebinds the local name token to the
peeked Token instance, and line 207 then evaluates
token.IsType(token.TYPE_INT): the TYPE_* constants live at module level
in token.py and are not attributes of the Token class, so the access
raises an AttributeError inside the outer try, whose except re-raises it
wrapped as line number — on every input.  Everything below that test (the
Require of the line number, _ReadStatementList and its forty statement
sub-parsers, the inner try that stamps the line number on a failure and
swallows it, and the program.Add call) is unreachable, and the store is
never touched.  The statement type is left generic; no value of it can be
produced. -/
def readCommand {σ : Type} (prog : Program (List σ)) (ts : List Token) :
    Program (List σ) × PR (Option (List σ) × List Token) :=
  let _token := tsPeek ts
  (prog, pwrap "line number" (throw (.attrErr "TYPE_INT")))

/-!
Theorems.
-/

/-- C1: for all numeric values a and b, evaluating an addition expression
yields Int(a+b) on Int plus Int, Float(a+b) on any other numeric pairing
(Float plus Int, Int plus Float, Float plus Float), the concatenation on
String plus String, and a TypeError on mixed Int/String addition in either
order. -/
theorem EAdd_Evaluate_add_semantics :
    (∀ a b : Int, (Expression.EAdd (.EInt a 10) (.EInt b 10)).Evaluate =
      .ok (.VInt (a + b))) ∧
    (∀ (p : Rat) (b : Int), (Expression.EAdd (.EFloat p) (.EInt b 10)).Evaluate =
      .ok (.VFloat (p + (b : Rat)))) ∧
    (∀ (a : Int) (q : Rat), (Expression.EAdd (.EInt a 10) (.EFloat q)).Evaluate =
      .ok (.VFloat ((a : Rat) + q))) ∧
    (∀ p q : Rat, (Expression.EAdd (.EFloat p) (.EFloat q)).Evaluate =
      .ok (.VFloat (p + q))) ∧
    (∀ s1 s2 : String, (Expression.EAdd (.EString s1) (.EString s2)).Evaluate =
      .ok (.VString (s1 ++ s2))) ∧
    (∀ (a : Int) (s : String), (Expression.EAdd (.EInt a 10) (.EString s)).Evaluate =
      .error .ERR_TYPE) ∧
    (∀ (s : String) (b : Int), (Expression.EAdd (.EString s) (.EInt b 10)).Evaluate =
      .error .ERR_TYPE) :=
  ⟨fun _ _ => rfl, fun _ _ => rfl, fun _ _ => rfl, fun _ _ => rfl,
   fun _ _ => rfl, fun _ _ => rfl, fun _ _ => rfl⟩

/-- C2: the claim expects tokenizing the line 10 PRINT "HI";A% to produce
Int(10), Keyword(PRINT), String("HI"), Semicolon, ID_INT("a%") and then
end-of-input.  The code disagrees: the very first iteration of _ReadToken
calls self.Eof() (token_stream.py line 184), an attribute the class does
not have (only EOF exists), so the first token request raises an
AttributeError at once — whatever the fuel allowance, not even the first
token Int(10) is ever produced. -/
theorem ReadToken_c2_line_attribute_error :
    ∀ fuel, ReadToken (fuel + 1) ("10 PRINT \"HI\";A%".toList) 0 =
      some (.error (.attrError "Eof")) :=
  fun _ => rfl

/-- C3: the claim expects an unrecognized character to raise a lexical
error carrying the character and column, with tokenization terminating on
every finite line.  The code disagrees: _ReadToken raises an
AttributeError at self.Eof() (token_stream.py line 184) on its first
iteration, before the offending character is even examined, so the error
raised on the line consisting of an exclamation mark is the same
AttributeError as on every other line — never a TokenException carrying
the character and its column (the raising STATE_ERROR branch, and the
whole dispatch behind it, is dead code). -/
theorem ReadToken_unrecognized_char_attribute_error :
    ∀ fuel, ReadToken (fuel + 1) ['!'] 0 = some (.error (.attrError "Eof")) :=
  fun _ => rfl

/-- C4: the claim expects an identifier token whose uppercased spelling
is a keyword (or builtin name) to be reclassified as a Keyword (or
Function) token.  The code disagrees: the promotion branch of
Token.__init__ assigns through the JavaScript identifier this, undefined
in Python, so constructing such a token raises a NameError instead.  An
identifier matching neither set is lower-cased and keeps its
sigil-derived type as claimed. -/
theorem mkToken_keyword_promotion_nameerror :
    mkToken TYPE_ID_FLOAT (.str "print") = .error .nameErr ∧
    mkToken TYPE_ID_FLOAT (.str "PRINT") = .error .nameErr ∧
    mkToken TYPE_ID_STRING (.str "left$") = .error .nameErr ∧
    mkToken TYPE_ID_FLOAT (.str "Count7") = .ok ⟨TYPE_ID_FLOAT, .str "count7"⟩ :=
  ⟨rfl, rfl, rfl, rfl⟩

/-- C5: the claim expects the equality-level sub-parser, on the token
stream a = b (or a <> b), to consume the operator and return an equality
node over the two operands.  The code disagrees: _ReadExp2 is the one
cascade level whose loop never calls Get, so the operator is still the
next token when the right operand is read; the inner _ReadExp3 then fails
on the operator and _ReadExp2 raises a wrapped parse error instead of
returning a node. -/
theorem readExp2_equality_parse_error :
    (readExp2 40 [⟨TYPE_ID_FLOAT, .str "a"⟩, ⟨TYPE_EQUAL, .none⟩,
        ⟨TYPE_ID_FLOAT, .str "b"⟩]).run =
      some (.error (.parserErr "expression" (.parserErr "expression"
        (.parserErr "constant" (.parserErrRoot "expression"))))) ∧
    (readExp2 40 [⟨TYPE_ID_FLOAT, .str "a"⟩, ⟨TYPE_NEQUAL, .none⟩,
        ⟨TYPE_ID_FLOAT, .str "b"⟩]).run =
      some (.error (.parserErr "expression" (.parserErr "expression"
        (.parserErr "constant" (.parserErrRoot "expression"))))) :=
  ⟨rfl, rfl⟩

/-- C6: the claim expects SetArray on a declared array with in-range
indices to store the value and not raise.  The code disagrees: the body of
Environment.SetArray has no else before its final raise, so after storing
the value it still raises ERR_BADVAR; the store itself does happen, as the
subsequent GetArray shows. -/
theorem envSetArray_declared_inrange_still_raises :
    (envSetArray (envMakeArray [⟨[], [], []⟩] "a" TYPE_ID_FLOAT [2])
        "a" [1] (.VInt 7)).2 = .error .ERR_BADVAR ∧
    envGetArray
      (envSetArray (envMakeArray [⟨[], [], []⟩] "a" TYPE_ID_FLOAT [2])
        "a" [1] (.VInt 7)).1 "a" [1] = .ok (.VInt 7) :=
  ⟨rfl, rfl⟩

/-- C7: on an input line beginning with an integer line number, a parse
failure leaves the program store completely unchanged and yields nothing
executable.  This holds of every input line: _ReadCommand fails at its
leading type test (the token.TYPE_INT attribute read on the peeked Token
instance raises an AttributeError, re-raised by the outer except wrapped
as line number), so reading any line fails before the store or any
statement is reached, the program.Add call sitting after the full
statement-list parse is never executed, and the store is returned
untouched. -/
theorem readCommand_failure_leaves_program_unchanged :
    ∀ (σ : Type) (prog : Program (List σ)) (ts : List Token),
    (readCommand prog ts).1 = prog ∧
    (readCommand prog ts).2.run =
      some (.error (.parserErr "line number" (.attrErr "TYPE_INT"))) :=
  fun _ _ _ => ⟨rfl, rfl⟩

/-- C8: the claim expects the filename-legality predicate to accept
exactly the strings of length 1 to 40 over letters, digits, dash,
underscore, dot and space without a leading or trailing space, and in
particular to accept abc.  The code disagrees: IsValidFilename is left as
a stub whose only statement is return False (the intended logic survives
only inside its docstring), so it rejects abc too. -/
theorem isValidFilename_rejects_abc :
    VString.IsValidFilename "abc" = false := rfl

/-- C9: converting a String value to a number raises ERR_FORMAT with the
context string conversion exactly when the payload does not parse as a
number of the requested kind (Python int or float), and otherwise returns
the parsed value; no other failure is possible. -/
theorem stringAsInt_stringAsFloat_format_error_iff :
    ∀ s : String,
    (Value.stringAsInt s = .error (.ERR_FORMAT "string conversion") ↔
      pyIntOfString s = Option.none) ∧
    (∀ n : Int, pyIntOfString s = some n → Value.stringAsInt s = .ok n) ∧
    (∀ n : Int, Value.stringAsInt s = .ok n → pyIntOfString s = some n) ∧
    (Value.stringAsFloat s = .error (.ERR_FORMAT "string conversion") ↔
      pyFloatOfString s = Option.none) ∧
    (∀ q : Rat, pyFloatOfString s = some q → Value.stringAsFloat s = .ok q) ∧
    (∀ q : Rat, Value.stringAsFloat s = .ok q → pyFloatOfString s = some q) := by
  intro s
  refine ⟨?_, ?_, ?_, ?_, ?_, ?_⟩ <;>
    first
    | (cases h : pyIntOfString s <;> simp [Value.stringAsInt, h])
    | (cases h : pyFloatOfString s <;> simp [Value.stringAsFloat, h])

/-- Witness for C9: the string 12 parses as the integer 12 and converts
accordingly. -/
theorem stringAsInt_stringAsFloat_format_error_iff_witness :
    Value.stringAsInt "12" = .ok 12 :=
  (stringAsInt_stringAsFloat_format_error_iff "12").2.1 12 rfl

/-- C10: Peek is a side-effect-free read: whenever Peek returns a token,
peeking again (any fuel) returns the same token with the stream state
unchanged, Get after the Peek returns exactly that token and merely clears
the one-token buffer, and that final state is the same one a direct Get
from the original state produces — Get after Peek advances past exactly
that one token. -/
theorem Peek_Get_agreement :
    ∀ (fuel fuel2 fuel3 : Nat) (s : TokenStream) (t : Token)
    (s2 : TokenStream),
    TokenStream.Peek fuel s = some (.ok (t, s2)) →
    (TokenStream.Peek fuel2 s2 = some (.ok (t, s2)) ∧
     TokenStream.Get fuel3 s2 = some (.ok (t, { s2 with peek := Option.none })) ∧
     TokenStream.Get fuel s = some (.ok (t, { s2 with peek := Option.none }))) := by
  intro fuel fuel2 fuel3 s t s2 h
  cases hp : s.peek with
  | some u =>
    rw [TokenStream.Peek, hp] at h
    injection h with h
    injection h with h
    injection h with h1 h2
    subst h1; subst h2
    refine ⟨?_, ?_, ?_⟩
    · rw [TokenStream.Peek, hp]
    · rw [TokenStream.Get, hp]
    · rw [TokenStream.Get, hp]
  | none =>
    rw [TokenStream.Peek, hp] at h
    cases hr : ReadToken fuel s.buffer s.offset with
    | none => rw [hr] at h; simp at h
    | some r =>
      cases r with
      | error e => rw [hr] at h; simp [Except.map] at h
      | ok p =>
        rw [hr] at h
        simp [Except.map] at h
        obtain ⟨h1, h2⟩ := h
        subst h1
        refine ⟨?_, ?_, ?_⟩
        · rw [TokenStream.Peek, ← h2]
        · rw [TokenStream.Get, ← h2]
        · rw [TokenStream.Get, hp, hr]
          simp [Except.map, ← h2]

/-- Witness for C10: on a stream whose one-token buffer already holds a
colon token (the state any successful Peek leaves behind), Peek hands the
buffered token out unchanged and Get agrees with it. -/
theorem Peek_Get_agreement_witness :
    TokenStream.Peek 3 ⟨[':'], 1, some ⟨TYPE_COLON, .none⟩⟩ =
      some (.ok (⟨TYPE_COLON, .none⟩, ⟨[':'], 1, some ⟨TYPE_COLON, .none⟩⟩)) ∧
    TokenStream.Get 3 ⟨[':'], 1, some ⟨TYPE_COLON, .none⟩⟩ =
      some (.ok (⟨TYPE_COLON, .none⟩, ⟨[':'], 1, Option.none⟩)) ∧
    TokenStream.Get 5 ⟨[':'], 1, some ⟨TYPE_COLON, .none⟩⟩ =
      some (.ok (⟨TYPE_COLON, .none⟩, ⟨[':'], 1, Option.none⟩)) :=
  Peek_Get_agreement 5 3 3 ⟨[':'], 1, some ⟨TYPE_COLON, .none⟩⟩
    ⟨TYPE_COLON, .none⟩ ⟨[':'], 1, some ⟨TYPE_COLON, .none⟩⟩ rfl

end PyBasic
